import Mathlib

/-!
Verification development for the `temp_glm_monitor` crate: a shallow
embedding of its data model (`models.rs`), quota fetch pipeline (`api.rs`),
refresh/state logic (`app.rs`) and one-shot waybar output (`main.rs`),
together with theorems settling the specification's claims.

Modelling conventions:
  - `std::time::Instant` and `chrono` wall-clock times are modelled as `Nat`
    tick counts passed explicitly to the operations that sample the clock.
  - Rust `i64` / `i32` are modelled as range-bounded integer subtypes.
  - Rust `f64` quantities (quota percentages) are modelled as exact
    rationals `Rat`; `f64::round` is round-half-away-from-zero and the
    `\x7b:.0\x7d` display rounding is round-half-to-even, as in Rust.
  - JSON values are an inductive type; a response body is its raw text
    paired with the result of parsing it (`none` when not valid JSON),
    standing for `serde_json::from_str::<Value>`.
-/

namespace GlmMonitor

/-- Rust `i64`: integers in the interval from -2^63 inclusive to 2^63 exclusive. -/
abbrev Int64 := {n : Int // -(2^63) ≤ n ∧ n < 2^63}

/-- Rust `i32`: integers in the interval from -2^31 inclusive to 2^31 exclusive. -/
abbrev Int32 := {n : Int // -(2^31) ≤ n ∧ n < 2^31}

/-- JSON values, as produced by `serde_json::from_str::<Value>`. Numbers are
modelled as exact rationals. -/
inductive Json where
  | null : Json
  | bool (b : Bool) : Json
  | num (q : Rat) : Json
  | str (s : String) : Json
  | arr (elts : List Json) : Json
  | obj (fields : List (String × Json)) : Json

/-- Field of `UsageDetail` in `models.rs` (serde rename `modelCode`). -/
structure UsageDetail where
  model_code : Option String
  usage : Option Int64
deriving DecidableEq

/-- The `Limit` record of `models.rs`, with serde renames `type`,
`currentValue`, `usageDetails`, `nextResetTime` on the JSON side. -/
structure Limit where
  limit_type : String
  usage : Option Int64
  current_value : Option Int64
  remaining : Option Int64
  percentage : Option Rat
  unit : Option Int64
  number : Option Int32
  usage_details : List UsageDetail
  next_reset_time : Option Int64
deriving DecidableEq

/-- The `QuotaLimitResponse` record of `models.rs`. -/
structure QuotaLimitResponse where
  limits : List Limit
deriving DecidableEq

/-- The `AppState` record of `models.rs`. `next_refresh` is an instant on
the monotonic clock, `last_update` a wall-clock time, both in ticks. -/
structure AppState where
  quota_data : Option QuotaLimitResponse
  last_update : Option Nat
  last_error : Option String
  next_refresh : Nat
  refresh_interval : Nat
  is_loading : Bool
  should_quit : Bool
deriving DecidableEq

namespace AppState

/-- Model of `AppState::new`: `now` is the creation instant. -/
def new (now : Nat) (refresh_interval : Nat) : AppState :=
  { quota_data := none
    last_update := none
    last_error := none
    next_refresh := now
    refresh_interval := refresh_interval
    is_loading := true
    should_quit := false }

/-- Model of `AppState::update_quota`; `now` is the monotonic instant and
`wallNow` the wall-clock time sampled inside the method. -/
def update_quota (s : AppState) (now wallNow : Nat) (data : QuotaLimitResponse) : AppState :=
  { s with
    quota_data := some data
    last_update := some wallNow
    last_error := none
    is_loading := false
    next_refresh := now + s.refresh_interval }

/-- Model of `AppState::set_error`; `now` is the monotonic instant sampled
inside the method. -/
def set_error (s : AppState) (now : Nat) (error : String) : AppState :=
  { s with
    last_error := some error
    is_loading := false
    next_refresh := now + s.refresh_interval }

/-- Model of `AppState::should_refresh_now` at monotonic instant `now`. -/
def should_refresh_now (s : AppState) (now : Nat) : Bool :=
  s.next_refresh ≤ now

/-- Model of `AppState::force_refresh`; `now` is the monotonic instant. -/
def force_refresh (s : AppState) (now : Nat) : AppState :=
  { s with
    next_refresh := now
    is_loading := true }

end AppState

/-! Decimal rendering, modelling Rust's `to_string` on integers. The digit
list is produced with an explicit fuel argument so that it reduces by
kernel computation; `fuel = n` always suffices. -/

/-- Character for one decimal digit `d < 10`. -/
def digitChar (d : Nat) : Char := Char.ofNat (48 + d)

/-- Little-endian decimal digits of `n`, with fuel. -/
def digitsAux : Nat → Nat → List Nat
  | _, 0 => []
  | 0, _ + 1 => []
  | fuel + 1, n + 1 => ((n + 1) % 10) :: digitsAux fuel ((n + 1) / 10)

/-- Little-endian decimal digits of `n` (`[]` for `0`). -/
def natDigits (n : Nat) : List Nat := digitsAux n n

/-- Decimal character list of a natural number, most significant first. -/
def natDecChars (n : Nat) : List Char :=
  if n = 0 then ['0'] else ((natDigits n).map digitChar).reverse

/-- Model of Rust `u64`/`Nat` `to_string`. -/
def natToDecString (n : Nat) : String := ⟨natDecChars n⟩

/-- Model of Rust `i64::to_string`. -/
def intDecChars (v : Int) : List Char :=
  if v < 0 then '-' :: natDecChars v.natAbs else natDecChars v.natAbs

/-! JSON field access and the serde-derived decoder for the data model. -/

/-- First-match association lookup among the fields of a JSON object. -/
def lookupField : List (String × Json) → String → Option Json
  | [], _ => none
  | (k', x) :: rest, k => if k' = k then some x else lookupField rest k

/-- Model of `serde_json::Value::get` on a field name: `none` when the value
is not an object or the key is absent. -/
def getField (v : Json) (k : String) : Option Json :=
  match v with
  | .obj fs => lookupField fs k
  | _ => none

/-- Decode a JSON number as Rust `i64` (serde: must be an integer in range). -/
def decodeI64 (q : Rat) : Except String Int64 :=
  if h : q.den = 1 ∧ -(2^63) ≤ q.num ∧ q.num < 2^63 then .ok ⟨q.num, h.2⟩
  else .error "invalid value for i64"

/-- Decode a JSON number as Rust `i32`. -/
def decodeI32 (q : Rat) : Except String Int32 :=
  if h : q.den = 1 ∧ -(2^31) ≤ q.num ∧ q.num < 2^31 then .ok ⟨q.num, h.2⟩
  else .error "invalid value for i32"

/-- Decode an optional `i64` field: absent or `null` is `none`. -/
def decodeOptI64 : Option Json → Except String (Option Int64)
  | none => .ok none
  | some .null => .ok none
  | some (.num q) => (decodeI64 q).map some
  | some _ => .error "invalid type: expected i64"

/-- Decode an optional `i32` field: absent or `null` is `none`. -/
def decodeOptI32 : Option Json → Except String (Option Int32)
  | none => .ok none
  | some .null => .ok none
  | some (.num q) => (decodeI32 q).map some
  | some _ => .error "invalid type: expected i32"

/-- Decode an optional `f64` field: absent or `null` is `none`; any JSON
number is accepted. -/
def decodeOptF64 : Option Json → Except String (Option Rat)
  | none => .ok none
  | some .null => .ok none
  | some (.num q) => .ok (some q)
  | some _ => .error "invalid type: expected f64"

/-- Decode an optional string field: absent or `null` is `none`. -/
def decodeOptStr : Option Json → Except String (Option String)
  | none => .ok none
  | some .null => .ok none
  | some (.str s) => .ok (some s)
  | some _ => .error "invalid type: expected string"

/-- Decode one `UsageDetail` (serde derive: a map; missing optional fields
become `none`, unknown fields are ignored). -/
def decodeDetail (j : Json) : Except String UsageDetail :=
  match j with
  | .obj _ => do
      let mc ← decodeOptStr (getField j "modelCode")
      let u ← decodeOptI64 (getField j "usage")
      .ok ⟨mc, u⟩
  | _ => .error "invalid type: expected UsageDetail map"

/-- Decode a sequence of `UsageDetail`s, failing fast as serde does. -/
def decodeDetails : List Json → Except String (List UsageDetail)
  | [] => .ok []
  | j :: js => do
      let d ← decodeDetail j
      let rest ← decodeDetails js
      .ok (d :: rest)

/-- Decode one `Limit` (serde derive with the renames of `models.rs`;
`usageDetails` has serde `default`, so an absent field becomes `[]`). -/
def decodeLimit (j : Json) : Except String Limit :=
  match j with
  | .obj _ => do
      let ty ← match getField j "type" with
        | some (.str s) => .ok s
        | some _ => .error "invalid type for field type"
        | none => .error "missing field type"
      let usage ← decodeOptI64 (getField j "usage")
      let cv ← decodeOptI64 (getField j "currentValue")
      let rem ← decodeOptI64 (getField j "remaining")
      let pct ← decodeOptF64 (getField j "percentage")
      let unit ← decodeOptI64 (getField j "unit")
      let num ← decodeOptI32 (getField j "number")
      let ud ← match getField j "usageDetails" with
        | none => .ok []
        | some (.arr xs) => decodeDetails xs
        | some _ => .error "invalid type for field usageDetails"
      let nrt ← decodeOptI64 (getField j "nextResetTime")
      .ok ⟨ty, usage, cv, rem, pct, unit, num, ud, nrt⟩
  | _ => .error "invalid type: expected Limit map"

/-- Decode a sequence of `Limit`s, failing fast as serde does. -/
def decodeLimitList : List Json → Except String (List Limit)
  | [] => .ok []
  | j :: js => do
      let l ← decodeLimit j
      let rest ← decodeLimitList js
      .ok (l :: rest)

/-- Decode a `QuotaLimitResponse`: an object with a required `limits`
array field; unknown fields are ignored. -/
def decodeQuota (j : Json) : Except String QuotaLimitResponse :=
  match j with
  | .obj _ =>
      match getField j "limits" with
      | some (.arr xs) => (decodeLimitList xs).map QuotaLimitResponse.mk
      | some _ => .error "invalid type for field limits"
      | none => .error "missing field limits"
  | _ => .error "invalid type: expected QuotaLimitResponse map"

/-! Serde-derived serialization of the data model (`Serialize` on
`QuotaLimitResponse`, `Limit`, `UsageDetail`): every field is emitted, a
`None` becomes JSON `null`. -/

/-- Serialize an optional `i64` field value. -/
def serOptI64 : Option Int64 → Json
  | none => .null
  | some x => .num (x.val : Rat)

/-- Serialize an optional `i32` field value. -/
def serOptI32 : Option Int32 → Json
  | none => .null
  | some x => .num (x.val : Rat)

/-- Serialize an optional `f64` field value. -/
def serOptF64 : Option Rat → Json
  | none => .null
  | some q => .num q

/-- Serialize an optional string field value. -/
def serOptStr : Option String → Json
  | none => .null
  | some s => .str s

/-- Serialize one `UsageDetail`. -/
def serDetail (d : UsageDetail) : Json :=
  .obj [("modelCode", serOptStr d.model_code), ("usage", serOptI64 d.usage)]

/-- Serialize one `Limit`, with the serde renames of `models.rs`. -/
def serLimit (l : Limit) : Json :=
  .obj [("type", .str l.limit_type),
        ("usage", serOptI64 l.usage),
        ("currentValue", serOptI64 l.current_value),
        ("remaining", serOptI64 l.remaining),
        ("percentage", serOptF64 l.percentage),
        ("unit", serOptI64 l.unit),
        ("number", serOptI32 l.number),
        ("usageDetails", .arr (l.usage_details.map serDetail)),
        ("nextResetTime", serOptI64 l.next_reset_time)]

/-- Serialize a `QuotaLimitResponse`. -/
def serQuota (q : QuotaLimitResponse) : Json :=
  .obj [("limits", .arr (q.limits.map serLimit))]

/-! The fetch pipeline of `GlmApiClient::fetch_quota_limit` (`api.rs`),
after the transport layer: what remains is a function of the observed
status code and response body. -/

/-- A response body: its raw text together with the outcome of
`serde_json::from_str::<Value>` on it (`none` when not valid JSON). -/
structure BodyModel where
  raw : String
  parsed : Option Json

/-- Model of `reqwest::StatusCode::is_success`: a 2xx status. -/
def isSuccessStatus (status : Nat) : Bool :=
  200 ≤ status && status ≤ 299

/-- The parse stage of `fetch_quota_limit` on a 2xx body: if the body is
valid JSON and `Value::get("data")` yields a value, that value is decoded
as `QuotaLimitResponse` and the result — success or failure — is returned
with no fallback; otherwise the whole body is parsed directly. The error
strings are the `anyhow` context messages shown by `Display`. -/
def parseQuotaBody (body : BodyModel) : Except String QuotaLimitResponse :=
  match body.parsed with
  | some v =>
      match getField v "data" with
      | some d =>
          match decodeQuota d with
          | .ok q => .ok q
          | .error _ => .error "Failed to parse quota limit data"
      | none =>
          match decodeQuota v with
          | .ok q => .ok q
          | .error _ => .error "Failed to parse quota limit response"
  | none => .error "Failed to parse quota limit response"

/-- Model of `fetch_quota_limit` from the point where the status and body
of the HTTP response are known. -/
def fetch_quota_limit (url : String) (status : Nat) (body : BodyModel) :
    Except String QuotaLimitResponse :=
  if isSuccessStatus status then parseQuotaBody body
  else
    .error ("HTTP " ++ natToDecString status ++
      ": Failed to fetch quota limit\nURL: " ++ url ++
      "\nResponse: " ++ body.raw)

/-! Format helpers of `models.rs` (`Format::format_int`,
`Format::progress_bar`) and the waybar branch of `main.rs`. -/

/-- The grouping loop of `Format::format_int`: walk the reversed character
list with its enumeration index, pushing a space before every character
whose index is a positive multiple of 3. -/
def revGroup : Nat → List Char → List Char
  | _, [] => []
  | i, c :: cs => (if 0 < i ∧ i % 3 = 0 then [' ', c] else [c]) ++ revGroup (i + 1) cs

/-- Model of `Format::format_int`: render the `i64` in decimal, then insert
the thousands separators by the reversed-index walk, then reverse back. -/
def format_int : Option Int64 → String
  | some v => ⟨(revGroup 0 (intDecChars v.val).reverse).reverse⟩
  | none => "N/A"

/-- Rust `f64::clamp` on exact rationals. -/
def ratClamp (x lo hi : Rat) : Rat :=
  if x < lo then lo else if x > hi then hi else x

/-- Rust `f64::round`: nearest integer, ties away from zero. -/
def roundHalfAway (q : Rat) : Int :=
  if q < 0 then -(Rat.floor (-q + 1/2)) else Rat.floor (q + 1/2)

/-- Rounding used by Rust's fixed-precision display: ties to even. -/
def roundHalfEven (q : Rat) : Int :=
  if q - Rat.floor q < 1/2 then Rat.floor q
  else if 1/2 < q - Rat.floor q then Rat.floor q + 1
  else if Rat.floor q % 2 = 0 then Rat.floor q else Rat.floor q + 1

/-- Decimal string of an integer. -/
def intToDecString (v : Int) : String := ⟨intDecChars v⟩

/-- Rust `format` with zero decimal places on an `f64`. -/
def fmtF0 (q : Rat) : String := intToDecString (roundHalfEven q)

/-- Model of `Format::progress_bar`. -/
def progress_bar (percentage : Option Rat) (width : Nat) : String :=
  let pct := ratClamp (percentage.getD 0) 0 100
  let filled := (roundHalfAway (pct / 100 * (width : Rat))).toNat
  let filled := min filled width
  let empty := width - filled
  "[" ++ (⟨List.replicate filled '█'⟩ : String) ++
    (⟨List.replicate empty '░'⟩ : String) ++ "] " ++ fmtF0 pct ++ "%"

/-- Rust `as i64` on an `f64`: truncate toward zero, saturating. -/
def f64AsI64 (q : Rat) : Int :=
  max (-(2^63)) (min (2^63 - 1) (q.num.tdiv (q.den : Int)))

/-- The fields of the waybar JSON object that depend only on the snapshot
(`text`, `class`, `percentage`); the `tooltip` field also renders
wall-clock-dependent reset times and is outside this model. -/
structure WaybarOutput where
  text : String
  cls : String
  percentage : Int

/-- The scan of `quota.limits` in the waybar branch of `main.rs`: track the
highest percentage seen so far and the text of the limit that set it. -/
def waybarFold : List Limit → Rat → String → Rat × String
  | [], m, t => (m, t)
  | l :: ls, m, t =>
      match l.percentage with
      | some p =>
          if p > m then waybarFold ls p (l.limit_type ++ ": " ++ fmtF0 p ++ "%")
          else waybarFold ls m t
      | none => waybarFold ls m t

/-- The waybar branch of `main.rs` on a fetched snapshot: scan the limits,
fall back to the `GLM: N/A` text, classify `max_pct` at the 75/90
thresholds, and truncate `max_pct` for the `percentage` field. -/
def waybarOutput (q : QuotaLimitResponse) : WaybarOutput :=
  let acc := waybarFold q.limits 0 ""
  { text := if acc.2 = "" then "GLM: N/A" else acc.2
    cls := if acc.1 > 90 then "critical" else if acc.1 > 75 then "warning" else "normal"
    percentage := f64AsI64 acc.1 }

/-- Model of `App::refresh_data` (`app.rs`): the outcome of
`GlmApiClient::fetch_quota_limit` is passed in as an `Except`; the `Err`
branch stores the stringified failure via `set_error`. -/
def refresh_data (s : AppState) (now wallNow : Nat)
    (result : Except String QuotaLimitResponse) : AppState :=
  match result with
  | .ok data => s.update_quota now wallNow data
  | .error e => s.set_error now e

/-! Specification-side definitions, written from the specification's own
words, to be compared against the model of the code. -/

/-- Runs of up to three characters taken from the front; applied to a
reversed digit list this yields the runs of three from the right. -/
def chunks3 : List Char → List (List Char)
  | [] => []
  | [a] => [[a]]
  | [a, b] => [[a, b]]
  | a :: b :: c :: rest => [a, b, c] :: chunks3 rest

/-- Join character runs with a single space separator. -/
def joinSp : List (List Char) → List Char
  | [] => []
  | [g] => g
  | g :: g' :: gs => g ++ ' ' :: joinSp (g' :: gs)

/-- The specification's grouping: the decimal digits grouped in runs of
three from the right with a single space separator. -/
def specGroupDigits (ds : List Char) : List Char :=
  (joinSp (chunks3 ds.reverse)).reverse

/-- The specification's `format_int`: group the decimal digits of the
value, keep the sign in front of the grouped digits, and render `none`
as `N/A`. -/
def spec_format_int : Option Int64 → String
  | some v =>
      if v.val < 0 then "-" ++ (⟨specGroupDigits (natDecChars v.val.natAbs)⟩ : String)
      else ⟨specGroupDigits (natDecChars v.val.natAbs)⟩
  | none => "N/A"

/-- The specification's filled-glyph count for the progress bar:
`round(clamped percentage / 100 × width)` clamped to the interval from 0
to `width`. -/
def specFilledCount (percentage : Option Rat) (width : Nat) : Nat :=
  (max 0 (min (width : Int)
    (roundHalfAway (ratClamp (percentage.getD 0) 0 100 / 100 * (width : Rat))))).toNat

/-- The maximum percentage carried by any limit of the snapshot, with 0
when none carries one (the waybar scan starts its running maximum at 0). -/
def maxPctSpec (q : QuotaLimitResponse) : Rat :=
  (q.limits.filterMap Limit.percentage).foldl max 0

/-- A sample application state with a prior snapshot, for witnesses. -/
def sampleState : AppState :=
  { quota_data := some ⟨[]⟩
    last_update := some 3
    last_error := none
    next_refresh := 60
    refresh_interval := 60
    is_loading := false
    should_quit := false }

/-- A 2xx body whose JSON carries a `data` field that is not a valid
snapshot, while the body as a whole would decode directly (its `limits`
field is a valid array and unknown fields are ignored). -/
def c3Body : BodyModel :=
  ⟨"body", some (.obj [("data", .num 5), ("limits", .arr [])])⟩

/-- A 2xx body carrying a wrapped empty snapshot, for witnesses. -/
def wrappedBody : BodyModel :=
  ⟨"wrapped", some (.obj [("data", serQuota ⟨[]⟩)])⟩

/-- A snapshot with a single limit at 95 percent, for witnesses. -/
def snap95 : QuotaLimitResponse :=
  ⟨[⟨"TOKENS_LIMITED", none, none, none, some 95, none, none, [], none⟩]⟩

/-- A snapshot with a single limit at 80 percent, for witnesses. -/
def snap80 : QuotaLimitResponse :=
  ⟨[⟨"TOKENS_LIMITED", none, none, none, some 80, none, none, [], none⟩]⟩

/-- A snapshot with a single limit at 50 percent, for witnesses. -/
def snap50 : QuotaLimitResponse :=
  ⟨[⟨"TOKENS_LIMITED", none, none, none, some 50, none, none, [], none⟩]⟩

/-- A snapshot whose limits carry no percentage at all, for witnesses. -/
def snapNoPct : QuotaLimitResponse :=
  ⟨[⟨"TOKENS_LIMITED", none, none, none, none, none, none, [], none⟩]⟩

/-! Theorems settling the specification's claims. -/

/-- C1: after each completed fetch attempt — `update_quota` on success or
`set_error` on failure — the next-refresh deadline equals the current time
plus exactly one refresh interval, while `force_refresh` sets the deadline
to the current time and the loading flag to true. -/
theorem refresh_deadline_invariant (s : AppState) (now wallNow : Nat)
    (data : QuotaLimitResponse) (e : String) :
    (s.update_quota now wallNow data).next_refresh = now + s.refresh_interval ∧
    (s.set_error now e).next_refresh = now + s.refresh_interval ∧
    (s.force_refresh now).next_refresh = now ∧
    (s.force_refresh now).is_loading = true :=
  ⟨rfl, rfl, rfl, rfl⟩

/-- C2: a failed refresh leaves the stored snapshot untouched and records
the stringified failure in `last_error`. -/
theorem failed_refresh_preserves_snapshot (s : AppState) (now wallNow : Nat)
    (e : String) (d : QuotaLimitResponse) (_h : s.quota_data = some d) :
    (refresh_data s now wallNow (.error e)).quota_data = s.quota_data ∧
    (refresh_data s now wallNow (.error e)).last_error = some e :=
  ⟨rfl, rfl⟩

/-- Witness for C2 at a concrete state with a prior snapshot. -/
theorem failed_refresh_preserves_snapshot_witness :
    sampleState.quota_data = some ⟨[]⟩ ∧
    (refresh_data sampleState 70 71 (.error "boom")).quota_data = sampleState.quota_data ∧
    (refresh_data sampleState 70 71 (.error "boom")).last_error = some "boom" :=
  ⟨rfl,
    (failed_refresh_preserves_snapshot sampleState 70 71 "boom" ⟨[]⟩ rfl).1,
    (failed_refresh_preserves_snapshot sampleState 70 71 "boom" ⟨[]⟩ rfl).2⟩

/-- C9: after `force_refresh`, the very next evaluation of
`should_refresh_now` returns true, provided time does not move backwards. -/
theorem force_refresh_makes_due (s : AppState) (now later : Nat)
    (h : now ≤ later) :
    (s.force_refresh now).should_refresh_now later = true := by
  simp [AppState.force_refresh, AppState.should_refresh_now, h]

/-- Witness for C9: forcing at the same instant as the next check. -/
theorem force_refresh_makes_due_witness :
    (5 : Nat) ≤ 5 ∧ (sampleState.force_refresh 5).should_refresh_now 5 = true :=
  ⟨le_refl 5, force_refresh_makes_due sampleState 5 5 (le_refl 5)⟩

/-- C10: `set_error` leaves `last_update` (and the snapshot) unchanged, so
after a failed refresh the header still shows the time of the most recent
successful fetch, or none when there was none. -/
theorem set_error_preserves_last_update (s : AppState) (now : Nat) (e : String) :
    (s.set_error now e).last_update = s.last_update ∧
    (s.set_error now e).quota_data = s.quota_data :=
  ⟨rfl, rfl⟩

/-- C5: a non-2xx response never yields a snapshot; the fetch fails with an
error carrying the observed status code, the URL and the raw body. -/
theorem non_success_status_fails (url : String) (status : Nat) (body : BodyModel)
    (h : isSuccessStatus status = false) :
    fetch_quota_limit url status body =
      .error ("HTTP " ++ natToDecString status ++
        ": Failed to fetch quota limit\nURL: " ++ url ++
        "\nResponse: " ++ body.raw) ∧
    ∀ q, fetch_quota_limit url status body ≠ .ok q := by
  refine ⟨?_, ?_⟩
  · simp [fetch_quota_limit, h]
  · intro q hq
    simp [fetch_quota_limit, h] at hq

/-- Witness for C5 at status 404. -/
theorem non_success_status_fails_witness :
    isSuccessStatus 404 = false ∧
    fetch_quota_limit "https://host/q" 404 ⟨"not found", none⟩ =
      .error "HTTP 404: Failed to fetch quota limit\nURL: https://host/q\nResponse: not found" :=
  ⟨by decide,
    ((non_success_status_fails "https://host/q" 404 ⟨"not found", none⟩ (by decide)).1).trans
      (by with_unfolding_all rfl)⟩

/-- C3 counterexample: on `c3Body` the `data` field is present but does not
decode, and the body as a whole decodes directly; the claimed fallback
would succeed, yet the fetch parse stage fails. -/
theorem wrapped_decode_no_fallback_counterexample :
    parseQuotaBody c3Body = .error "Failed to parse quota limit data" ∧
    decodeQuota (.obj [("data", .num 5), ("limits", .arr [])]) = .ok ⟨[]⟩ :=
  ⟨by with_unfolding_all rfl, by with_unfolding_all rfl⟩

/-- C3 amended: on a 2xx body, when the body parses as JSON and carries a
top-level `data` field, the decode of the value under `data` is decisive —
its success is returned and its failure is returned with no fallback; only
when the body is not valid JSON or carries no `data` field is the whole
body decoded directly. -/
theorem wrapped_decode_amended (body : BodyModel) :
    (∀ v d, body.parsed = some v → getField v "data" = some d →
      ((∀ q, decodeQuota d = .ok q → parseQuotaBody body = .ok q) ∧
       (∀ e, decodeQuota d = .error e →
          parseQuotaBody body = .error "Failed to parse quota limit data"))) ∧
    (∀ v, body.parsed = some v → getField v "data" = none →
      parseQuotaBody body =
        (decodeQuota v).mapError fun _ => "Failed to parse quota limit response") ∧
    (body.parsed = none →
      parseQuotaBody body = .error "Failed to parse quota limit response") := by
  refine ⟨?_, ?_, ?_⟩
  · intro v d hv hd
    refine ⟨?_, ?_⟩
    · intro q hq
      simp [parseQuotaBody, hv, hd, hq]
    · intro e he
      simp [parseQuotaBody, hv, hd, he]
  · intro v hv hd
    cases hq : decodeQuota v with
    | ok q => simp [parseQuotaBody, hv, hd, hq, Except.mapError]
    | error e => simp [parseQuotaBody, hv, hd, hq, Except.mapError]
  · intro hv
    simp [parseQuotaBody, hv]

/-- Witness for C3 amended: a wrapped empty snapshot decodes through the
`data` branch. -/
theorem wrapped_decode_amended_witness :
    parseQuotaBody wrappedBody = .ok ⟨[]⟩ :=
  ((wrapped_decode_amended wrappedBody).1
      (.obj [("data", serQuota ⟨[]⟩)]) (serQuota ⟨[]⟩) rfl rfl).1
    ⟨[]⟩ (by with_unfolding_all rfl)

/-! Roundtrip of the serde serializer and deserializer, component by
component, for claim C4. -/

/-- Decoding the serialization of an optional `i64` field recovers it. -/
theorem decodeOptI64_ser (o : Option Int64) :
    decodeOptI64 (some (serOptI64 o)) = .ok o := by
  cases o with
  | none => rfl
  | some x =>
    obtain ⟨x, hx⟩ := x
    have h : ((x : Rat)).den = 1 ∧ -(2^63) ≤ ((x : Rat)).num ∧ ((x : Rat)).num < 2^63 := by
      simpa [Rat.den_intCast, Rat.num_intCast] using hx
    simp only [serOptI64, decodeOptI64, decodeI64, dif_pos h, Except.map]
    simp [Rat.num_intCast]

/-- Decoding the serialization of an optional `i32` field recovers it. -/
theorem decodeOptI32_ser (o : Option Int32) :
    decodeOptI32 (some (serOptI32 o)) = .ok o := by
  cases o with
  | none => rfl
  | some x =>
    obtain ⟨x, hx⟩ := x
    have h : ((x : Rat)).den = 1 ∧ -(2^31) ≤ ((x : Rat)).num ∧ ((x : Rat)).num < 2^31 := by
      simpa [Rat.den_intCast, Rat.num_intCast] using hx
    simp only [serOptI32, decodeOptI32, decodeI32, dif_pos h, Except.map]
    simp [Rat.num_intCast]

/-- Decoding the serialization of an optional `f64` field recovers it. -/
theorem decodeOptF64_ser (o : Option Rat) :
    decodeOptF64 (some (serOptF64 o)) = .ok o := by
  cases o <;> rfl

/-- Decoding the serialization of an optional string field recovers it. -/
theorem decodeOptStr_ser (o : Option String) :
    decodeOptStr (some (serOptStr o)) = .ok o := by
  cases o <;> rfl

/-- Decoding a serialized `UsageDetail` recovers it. -/
theorem decodeDetail_ser (d : UsageDetail) :
    decodeDetail (serDetail d) = .ok d := by
  obtain ⟨mc, u⟩ := d
  simp [serDetail, decodeDetail, getField, lookupField,
    decodeOptStr_ser, decodeOptI64_ser]
  rfl

/-- Decoding a serialized `UsageDetail` list recovers it. -/
theorem decodeDetails_ser (ds : List UsageDetail) :
    decodeDetails (ds.map serDetail) = .ok ds := by
  induction ds with
  | nil => rfl
  | cons d ds ih =>
    simp [decodeDetails, decodeDetail_ser, ih]
    rfl

/-- Decoding a serialized `Limit` recovers it. -/
theorem decodeLimit_ser (l : Limit) :
    decodeLimit (serLimit l) = .ok l := by
  obtain ⟨ty, u, cv, rem, pct, un, num, ud, nrt⟩ := l
  simp [serLimit, decodeLimit, getField, lookupField,
    decodeOptI64_ser, decodeOptI32_ser, decodeOptF64_ser, decodeDetails_ser]
  rfl

/-- Decoding a serialized `Limit` list recovers it. -/
theorem decodeLimitList_ser (ls : List Limit) :
    decodeLimitList (ls.map serLimit) = .ok ls := by
  induction ls with
  | nil => rfl
  | cons l ls ih =>
    simp [decodeLimitList, decodeLimit_ser, ih]
    rfl

/-- Decoding a serialized snapshot recovers it. -/
theorem decodeQuota_ser (q : QuotaLimitResponse) :
    decodeQuota (serQuota q) = .ok q := by
  simp [serQuota, decodeQuota, getField, lookupField, decodeLimitList_ser,
    Except.map]

/-- C4: for every snapshot value, the fetch parse stage on the body wrapped
as a `data` envelope and on the unwrapped body yield the identical decoded
snapshot. -/
theorem wrapped_unwrapped_agree (v : QuotaLimitResponse) (raw₁ raw₂ : String) :
    parseQuotaBody ⟨raw₁, some (.obj [("data", serQuota v)])⟩ = .ok v ∧
    parseQuotaBody ⟨raw₂, some (serQuota v)⟩ = .ok v := by
  refine ⟨?_, ?_⟩
  · simp [parseQuotaBody, getField, lookupField, decodeQuota_ser]
  · have hd : getField (serQuota v) "data" = none := by
      simp [serQuota, getField, lookupField]
    simp [parseQuotaBody, hd, decodeQuota_ser]

/-- The running maximum tracked by the waybar scan is the fold of `max`
over the percentages present, whatever texts are built along the way. -/
theorem waybarFold_fst (ls : List Limit) (m : Rat) (t : String) :
    (waybarFold ls m t).1 = (ls.filterMap Limit.percentage).foldl max m := by
  induction ls generalizing m t with
  | nil => rfl
  | cons l ls ih =>
    cases hp : l.percentage with
    | none => simp [waybarFold, hp, ih]
    | some p =>
      simp only [waybarFold, hp, List.filterMap_cons, List.foldl_cons]
      by_cases h : p > m
      · rw [if_pos h, ih, max_eq_right (le_of_lt h)]
      · rw [if_neg h, ih, max_eq_left (not_lt.mp h)]

/-- When no limit carries a percentage, the waybar scan changes nothing. -/
theorem waybarFold_none (ls : List Limit) (m : Rat) (t : String)
    (h : ∀ l ∈ ls, l.percentage = none) : waybarFold ls m t = (m, t) := by
  induction ls with
  | nil => rfl
  | cons l ls ih =>
    have hl : l.percentage = none := h l (by simp)
    simp only [waybarFold, hl]
    exact ih fun x hx => h x (by simp [hx])

/-- C6: in one-shot waybar mode the emitted class is the maximum limit
percentage thresholded at 75 / 90 (in particular a maximum of 95 is
`critical`, 80 is `warning`, 50 is `normal`), and a snapshot whose limits
carry no percentage emits the text `GLM: N/A` with percentage 0. -/
theorem waybar_classification (q : QuotaLimitResponse) :
    ((waybarOutput q).cls =
      if 90 < maxPctSpec q then "critical"
      else if 75 < maxPctSpec q then "warning" else "normal") ∧
    ((∀ l ∈ q.limits, l.percentage = none) →
      (waybarOutput q).text = "GLM: N/A" ∧ (waybarOutput q).percentage = 0) := by
  refine ⟨?_, ?_⟩
  · simp only [waybarOutput, maxPctSpec, waybarFold_fst]
  · intro h
    rw [waybarOutput, waybarFold_none q.limits 0 "" h]
    refine ⟨rfl, ?_⟩
    show f64AsI64 0 = 0
    decide

/-- Witness for C6: the classification of the sample snapshots at 95, 80
and 50 percent, and the no-percentage snapshot's text and percentage. -/
theorem waybar_classification_witness :
    (waybarOutput snap95).cls = "critical" ∧
    (waybarOutput snap80).cls = "warning" ∧
    (waybarOutput snap50).cls = "normal" ∧
    (waybarOutput snapNoPct).text = "GLM: N/A" ∧
    (waybarOutput snapNoPct).percentage = 0 :=
  ⟨(waybar_classification snap95).1.trans (by with_unfolding_all rfl),
   (waybar_classification snap80).1.trans (by with_unfolding_all rfl),
   (waybar_classification snap50).1.trans (by with_unfolding_all rfl),
   ((waybar_classification snapNoPct).2 (by decide)).1,
   ((waybar_classification snapNoPct).2 (by decide)).2⟩

/-- The reversed-index walk only consults positivity and the index mod 3. -/
theorem revGroup_congr (l : List Char) (i j : Nat) (hi : 0 < i) (hj : 0 < j)
    (hmod : i % 3 = j % 3) : revGroup i l = revGroup j l := by
  induction l generalizing i j with
  | nil => rfl
  | cons c cs ih =>
    have hcond : (0 < i ∧ i % 3 = 0) ↔ (0 < j ∧ j % 3 = 0) := by omega
    simp only [revGroup]
    rw [if_congr hcond rfl rfl, ih (i + 1) (j + 1) (by omega) (by omega) (by omega)]

/-- Chunking a nonempty list yields at least one run. -/
theorem chunks3_ne_nil (l : List Char) (h : l ≠ []) : chunks3 l ≠ [] := by
  cases l with
  | nil => exact absurd rfl h
  | cons a l1 =>
    cases l1 with
    | nil => simp [chunks3]
    | cons b l2 =>
      cases l2 with
      | nil => simp [chunks3]
      | cons c rest => simp [chunks3]

/-- Joining onto a nonempty run list places one space after the head run. -/
theorem joinSp_cons (g : List Char) (gs : List (List Char)) (h : gs ≠ []) :
    joinSp (g :: gs) = g ++ ' ' :: joinSp gs := by
  cases gs with
  | nil => exact absurd rfl h
  | cons g1 gs1 => rfl

/-- The code's reversed-index walk coincides with chunking into runs of
three joined by single spaces. -/
theorem revGroup_chunks (l : List Char) : revGroup 0 l = joinSp (chunks3 l) := by
  induction l using chunks3.induct with
  | case1 => rfl
  | case2 a => simp [revGroup, chunks3, joinSp]
  | case3 a b => simp [revGroup, chunks3, joinSp]
  | case4 a b c rest ih =>
    have h3 : revGroup 0 (a :: b :: c :: rest) = a :: b :: c :: revGroup 3 rest := by
      simp [revGroup]
    cases rest with
    | nil => rw [h3]; simp [revGroup, chunks3, joinSp]
    | cons d ds =>
      have h4 : revGroup 3 (d :: ds) = ' ' :: revGroup 0 (d :: ds) := by
        have hc := revGroup_congr ds 4 1 (by omega) (by omega) (by omega)
        simp [revGroup, hc]
      rw [h3, h4, ih,
        show chunks3 (a :: b :: c :: d :: ds) = [a, b, c] :: chunks3 (d :: ds) from rfl,
        joinSp_cons _ _ (chunks3_ne_nil _ (by simp))]
      simp

/-- C7 counterexample: at -123 the code groups the characters of the signed
decimal string, inserting a space between the sign and the digits, and so
differs from grouping the decimal digits. -/
theorem format_int_counterexample :
    format_int (some ⟨-123, by decide⟩) ≠ spec_format_int (some ⟨-123, by decide⟩) ∧
    format_int (some ⟨-123, by decide⟩) = "- 123" ∧
    spec_format_int (some ⟨-123, by decide⟩) = "-123" :=
  ⟨by decide, by decide, by decide⟩

/-- C7 amended: for every nonnegative `i64` input, `format_int` returns the
decimal digits grouped in runs of three from the right with a single space
separator, and `format_int` of `none` is `N/A`; for negative inputs the
same character-grouping runs over the signed decimal string, which inserts
a space between the sign and the digits when the digit count is a multiple
of three. -/
theorem format_int_amended :
    (∀ v : Int64, 0 ≤ v.val → format_int (some v) = spec_format_int (some v)) ∧
    format_int none = "N/A" := by
  refine ⟨?_, rfl⟩
  intro v hv
  obtain ⟨v, hb⟩ := v
  have hneg : ¬ v < 0 := not_lt.mpr hv
  simp only [format_int, spec_format_int, intDecChars, specGroupDigits, if_neg hneg]
  rw [revGroup_chunks]

/-- Witness for C7 amended at 1234567. -/
theorem format_int_amended_witness :
    (0 : Int) ≤ 1234567 ∧
    format_int (some ⟨1234567, by decide⟩) = spec_format_int (some ⟨1234567, by decide⟩) ∧
    format_int (some ⟨1234567, by decide⟩) = "1 234 567" :=
  ⟨by decide, format_int_amended.1 ⟨1234567, by decide⟩ (by decide), by decide⟩

/-- The computable `Rat.floor` agrees with the `FloorRing` floor. -/
theorem ratFloor_eq_intFloor (q : Rat) : Rat.floor q = ⌊q⌋ := by
  rw [Rat.floor_def', Rat.floor_def]

/-- Rounding a whole number is the identity. -/
theorem roundHalfAway_natCast (w : Nat) : roundHalfAway (w : Rat) = w := by
  unfold roundHalfAway
  rw [if_neg (not_lt.mpr (by positivity)), ratFloor_eq_intFloor, Int.floor_eq_iff]
  constructor
  · push_cast
    linarith
  · push_cast
    linarith

/-- Rounding zero gives zero. -/
theorem roundHalfAway_zero : roundHalfAway 0 = 0 := by
  have := roundHalfAway_natCast 0
  simpa using this

/-- The code's filled count — rounded then truncated to `usize` then
clamped above by the width — equals the specification's formula. -/
theorem filled_eq_spec (p : Option Rat) (w : Nat) :
    min ((roundHalfAway (ratClamp (p.getD 0) 0 100 / 100 * (w : Rat))).toNat) w =
      specFilledCount p w := by
  unfold specFilledCount
  generalize roundHalfAway (ratClamp (p.getD 0) 0 100 / 100 * (w : Rat)) = r
  omega

/-- The specification's filled count never exceeds the width. -/
theorem specFilledCount_le (p : Option Rat) (w : Nat) : specFilledCount p w ≤ w := by
  unfold specFilledCount
  generalize roundHalfAway (ratClamp (p.getD 0) 0 100 / 100 * (w : Rat)) = r
  omega

/-- C8: the progress bar consists of the specification's filled count of
full glyphs and the complement of empty glyphs — exactly `width` glyphs in
all — inside brackets, suffixed with the rounded clamped percentage; a
percentage at least 100 fills the bar completely and an absent or
nonpositive percentage leaves it empty. -/
theorem progress_bar_spec (p : Option Rat) (w : Nat) :
    progress_bar p w =
      "[" ++ (⟨List.replicate (specFilledCount p w) '█'⟩ : String) ++
        (⟨List.replicate (w - specFilledCount p w) '░'⟩ : String) ++ "] " ++
        fmtF0 (ratClamp (p.getD 0) 0 100) ++ "%" ∧
    specFilledCount p w + (w - specFilledCount p w) = w ∧
    (∀ q, p = some q → 100 ≤ q → specFilledCount p w = w) ∧
    (p = none ∨ (∃ q, p = some q ∧ q ≤ 0) → specFilledCount p w = 0) := by
  refine ⟨?_, ?_, ?_, ?_⟩
  · simp only [progress_bar]
    rw [filled_eq_spec]
  · have := specFilledCount_le p w
    omega
  · intro q hq h100
    subst hq
    have hcl : ratClamp q 0 100 = 100 := by
      unfold ratClamp
      rw [if_neg (not_lt.mpr (by linarith))]
      by_cases h2 : q > 100
      · rw [if_pos h2]
      · rw [if_neg h2]
        exact le_antisymm (not_lt.mp h2) h100
    unfold specFilledCount
    simp only [Option.getD, hcl]
    rw [show (100 : Rat) / 100 * (w : Rat) = (w : Rat) by norm_num,
      roundHalfAway_natCast]
    omega
  · intro h
    have hcl : ratClamp ((p.getD 0)) 0 100 = 0 := by
      rcases h with h | ⟨q, hq, hq0⟩
      · subst h
        unfold ratClamp
        norm_num
      · subst hq
        unfold ratClamp
        simp only [Option.getD]
        by_cases hlt : q < 0
        · rw [if_pos hlt]
        · rw [if_neg hlt, if_neg (by linarith)]
          exact le_antisymm hq0 (not_lt.mp hlt)
    unfold specFilledCount
    rw [hcl, show (0 : Rat) / 100 * (w : Rat) = 0 by norm_num, roundHalfAway_zero]
    omega

/-- Witness for C8: a percentage of 120 fills a width-10 bar completely and
an absent percentage leaves it empty. -/
theorem progress_bar_spec_witness :
    ((some (120 : Rat) = some (120 : Rat)) ∧ (100 : Rat) ≤ 120 ∧
      specFilledCount (some 120) 10 = 10) ∧
    specFilledCount none 10 = 0 ∧
    progress_bar none 10 = "[░░░░░░░░░░] 0%" :=
  ⟨⟨rfl, by norm_num,
      (progress_bar_spec (some 120) 10).2.2.1 120 rfl (by norm_num)⟩,
    (progress_bar_spec none 10).2.2.2 (Or.inl rfl),
    by with_unfolding_all rfl⟩

end GlmMonitor
